import Mathlib

/-!
Verification of the roax method registry and dispatch core (`roax/resource.py`).

The Python source is shallowly embedded: Python values passed as operation
parameters or returned from operations become the inductive `Value`; keyword
argument mappings become association lists; exceptions become the error side
of `Except`; the registry dict becomes an association list keyed by the
`(kind, name)` pair.  The collaborators `roax.context` and `roax.schema`
belong to this repository but their sources are not available, so they are
modelled from the specification where marked.  Call-time effects that the
claims talk about (context-frame pushes and pops, invocation of the original
function, return-value validation, application of a security hook) are
recorded as an explicit event trace alongside the computed result.
-/

namespace Roax

/-- A Python value, as far as the registry core observes it: operation
parameters and results are opaque to the core, so a small closed universe
suffices. -/
inductive Value where
  | vnone
  | vstr (s : String)
  | vint (n : Int)
deriving DecidableEq, Repr

/-- Keyword arguments: a mapping from parameter names to values
(`**params` expansion passes exactly this mapping). -/
abbrev Params := List (String × Value)

/-- The attributes of a constructed `ResourceError` instance: `detail` and
`code` are set by `ResourceError.__init__`; `realm` is set only by
`Unauthorized.__init__` and is absent (`none`) on every other kind. -/
structure ErrObj where
  detail : Option String
  code : Int
  realm : Option String := none
deriving DecidableEq, Repr

/-- A raisable Python exception as the embedding distinguishes them: either a
`ResourceError` (with its attributes) or a `TypeError` raised by the Python
runtime itself, e.g. for a constructor call missing a required argument. -/
inductive PyError where
  | resourceError (e : ErrObj)
  | typeError (msg : String)
deriving DecidableEq, Repr

/-- The body of `ResourceError.__init__(self, detail, code)` once both
arguments are bound: stores `detail` and `code` on the instance. -/
def resourceErrorInit (detail : Option String) (code : Int) : ErrObj :=
  { detail := detail, code := code }

/-- A call of the constructor `ResourceError(detail, code)` with Python call
semantics.  `code` has no default value in the source, so a call that
supplies only `detail` — as the duplicate-registration line
`raise ResourceError("method already registered: ...")` does — never reaches
the constructor body: the Python runtime raises `TypeError` for the missing
required positional argument. -/
def mkResourceError (detail : Option String) (code : Option Int) :
    Except PyError ErrObj :=
  match code with
  | some c => Except.ok (resourceErrorInit detail c)
  | none => Except.error (PyError.typeError
      "ResourceError.__init__ missing 1 required positional argument: code")

/-- Python `raise expr`: the expression constructing the exception is
evaluated first; if that evaluation itself raises, the inner exception is the
one that propagates. -/
def pyRaise (e : Except PyError ErrObj) : PyError :=
  match e with
  | Except.ok obj => PyError.resourceError obj
  | Except.error err => err

/-- `BadRequest.__init__`: `super().__init__(detail, 400)`. -/
def mkBadRequest (detail : Option String := none) : ErrObj :=
  resourceErrorInit detail 400

/-- `Unauthorized.__init__`: `super().__init__(detail, 401)` followed by
`self.realm = realm`. -/
def mkUnauthorized (realm : String) (detail : Option String := none) : ErrObj :=
  { resourceErrorInit detail 401 with realm := some realm }

/-- `Forbidden.__init__`: `super().__init__(detail, 403)`. -/
def mkForbidden (detail : Option String := none) : ErrObj :=
  resourceErrorInit detail 403

/-- `NotFound.__init__`: `super().__init__(detail, 404)`. -/
def mkNotFound (detail : Option String := none) : ErrObj :=
  resourceErrorInit detail 404

/-- `Conflict.__init__`: `super().__init__(detail, 412)`. -/
def mkConflict (detail : Option String := none) : ErrObj :=
  resourceErrorInit detail 412

/-- `PreconditionFailed.__init__`: `super().__init__(detail, 412)`. -/
def mkPreconditionFailed (detail : Option String := none) : ErrObj :=
  resourceErrorInit detail 412

/-- `InternalServerError.__init__`: `super().__init__(detail, 500)`. -/
def mkInternalServerError (detail : Option String := none) : ErrObj :=
  resourceErrorInit detail 500

/-- The context frame pushed by the `method` wrapper: the concrete dict
`("type": "method", "kind": _kind, "name": _name)` with its three fixed keys. -/
structure Frame where
  type : String
  kind : Option String
  name : Option String
deriving DecidableEq, Repr

/-- The frame the `method` wrapper pushes: the dict literal on source line 66,
with the fixed "type" key set to "method" and the resolved kind and name. -/
def methodFrame (kind name : Option String) : Frame :=
  { type := "method", kind := kind, name := name }

/-- One observable call-time effect of the decorated pipeline. -/
inductive Event where
  /-- A frame was pushed on the shared context stack. -/
  | pushFrame (f : Frame)
  /-- The most recently pushed frame was popped from the shared context stack. -/
  | popFrame
  /-- The security collaborator was invoked with a declared policy. -/
  | securityApply (policy : String)
  /-- The original (undecorated) function was invoked with these keyword
  arguments. -/
  | invoke (kwargs : Params)
  /-- The return value was validated against the declared `returns` schema. -/
  | validateReturn (v : Value)
deriving DecidableEq, Repr

/-- A callable as the registry sees it: keyword arguments in, an event trace
plus a result (or a propagated exception) out. -/
abbrev PyFun := Params → List Event × Except PyError Value

/-- Effect of one event on the shared context stack. -/
def applyEvent (stack : List Frame) (e : Event) : List Frame :=
  match e with
  | Event.pushFrame f => f :: stack
  | Event.popFrame => stack.tail
  | _ => stack

/-- The shared context stack after a trace of events has run, starting from
`stack`. -/
def runStack (stack : List Frame) (tr : List Event) : List Frame :=
  tr.foldl applyEvent stack

/-- Modelled from the spec: `roax.context.context` (module `roax.context` is
not among the available sources).  `with context(frame): body` pushes the
frame onto the shared stack on entry and pops it on every exit path, normal
return or raise; the body's outcome is returned or re-raised unchanged. -/
def withContext (frame : Frame) (body : List Event × Except PyError Value) :
    List Event × Except PyError Value :=
  (Event.pushFrame frame :: body.1 ++ [Event.popFrame], body.2)

/-- Splitting helper for `pySplitOnce`, walking the characters and stopping at
the first separator. -/
def splitOnceAux : List Char → List Char → String × Option String
  | [], acc => (String.mk acc.reverse, none)
  | c :: rest, acc =>
    if c = '_' then (String.mk acc.reverse, some (String.mk rest))
    else splitOnceAux rest (c :: acc)

/-- Python `s.split("_", 1)`: at most one split, at the first underscore.
The result list always has the head segment; the pair's second component is
`some tail` exactly when the source list has a second element. -/
def pySplitOnce (s : String) : String × Option String :=
  splitOnceAux s.toList []

/-- Python `a or b` where `a` is a string-or-None value: `None` and the empty
string are falsy, any other string is truthy. -/
def pyOrStr (a : Option String) (b : String) : Option String :=
  match a with
  | none => some b
  | some s => if s = "" then some b else some s

/-- The kind/name derivation at the top of `method`'s `decorator`:
`_kind = kind; _name = name; split = function.__name__.split("_", 1);
if _kind is None: _kind = split[0];
if len(split) > 1: _name = _name or split[1]`. -/
def deriveKindName (kind name : Option String) (functionName : String) :
    Option String × Option String :=
  let split := pySplitOnce functionName
  let k := match kind with
    | none => some split.1
    | some s => some s
  let n := match split.2 with
    | some rest => pyOrStr name rest
    | none => name
  (k, n)

/-- A `params` schema: validates a keyword-argument mapping, returning the
(possibly coerced) mapping or rejecting. -/
structure ParamsSchema where
  validate : Params → Option Params

/-- A value schema (used for `returns`): validates a value, returning the
(possibly coerced) value or rejecting. -/
structure Schema where
  validate : Value → Option Value

/-- Modelled from the spec: the validation collaborator of `roax.schema`
applied to the incoming keyword arguments (module `roax.schema` is not among
the available sources).  With a schema, it returns the coerced arguments or
fails with a validation error convertible to `BadRequest` (code 400); with
`None` as schema it performs no validation but rejects any supplied
parameters as an error. -/
def validateParamsStep : Option ParamsSchema → Params → Except PyError Params
  | none, [] => Except.ok []
  | none, _ :: _ =>
    Except.error (PyError.resourceError (mkBadRequest (some "unexpected parameters")))
  | some sch, kwargs =>
    match sch.validate kwargs with
    | some kw => Except.ok kw
    | none =>
      Except.error (PyError.resourceError (mkBadRequest (some "parameter validation failed")))

/-- Modelled from the spec: the decorator `roax.schema.validate(params, returns)`
(module `roax.schema` is not among the available sources).  It validates the
incoming keyword arguments against `params` before invoking the decorated
callable, and validates the return value against `returns` after that callable
returns; an exception from the callable propagates unchanged with no return
validation, and a `returns` of `None` means no return validation. -/
def sValidate (params : Option ParamsSchema) (returns : Option Schema)
    (inner : PyFun) (kwargs : Params) : List Event × Except PyError Value :=
  match validateParamsStep params kwargs with
  | Except.error e => ([], Except.error e)
  | Except.ok kw =>
    let r := inner kw
    match r.2 with
    | Except.error e => (r.1, Except.error e)
    | Except.ok v =>
      match returns with
      | none => (r.1, Except.ok v)
      | some sch =>
        match sch.validate v with
        | some v2 => (r.1 ++ [Event.validateReturn v], Except.ok v2)
        | none =>
          (r.1 ++ [Event.validateReturn v],
            Except.error (PyError.resourceError (mkBadRequest (some "return validation failed"))))

/-- Invocation of the original (undecorated) function: records the `invoke`
event and yields the function's result or exception. -/
def invokeFunction (f : Params → Except PyError Value) : PyFun :=
  fun kwargs => ([Event.invoke kwargs], f kwargs)

/-- The `wrapper` closure inside `method`'s `decorator` (source lines 65-68):
runs the wrapped callable inside `with context(("type": "method", "kind": _kind,
"name": _name))`.  The line `roax.security.apply(security)` is commented out in
the source, so no security event occurs between the push and the invocation. -/
def wrapper (kind name : Option String) (wrapped : PyFun) : PyFun :=
  fun kwargs => withContext (methodFrame kind name) (wrapped kwargs)

/-- The declaration metadata stashed on the function as `function.roax_method`
(a `_Method` namedtuple whose `function` slot is always `None` there —
`Resource.__init__` registers the bound callable found on the instance
instead, so the slot is omitted here). -/
structure MethodMeta where
  kind : Option String
  name : Option String
  params : Option ParamsSchema
  returns : Option Schema
  security : Option String

/-- `method(kind=..., name=..., params=..., returns=..., security=...)` applied
to a function with declared name `functionName` and body `f`: derives the
kind/name defaults, builds the decorated callable
`s.validate(params, returns)(wrapt.decorator(wrapper)(function))`, and yields
it together with the stashed declaration metadata. -/
def methodDecorator (kind name : Option String) (params : Option ParamsSchema)
    (returns : Option Schema) (security : Option String)
    (functionName : String) (f : Params → Except PyError Value) :
    PyFun × MethodMeta :=
  let kn := deriveKindName kind name functionName
  (fun kwargs => sValidate params returns (wrapper kn.1 kn.2 (invokeFunction f)) kwargs,
   { kind := kn.1, name := kn.2, params := params, returns := returns, security := security })

/-- The `_Method` record as stored in `Resource.methods`: the registered
(decorated, bound) callable plus the declaration metadata. -/
structure MethodRec where
  function : PyFun
  kind : Option String
  name : Option String
  params : Option ParamsSchema
  returns : Option Schema
  security : Option String

/-- `Resource.methods`: the dict keyed by the `(kind, name)` pair. -/
abbrev Methods := List ((Option String × Option String) × MethodRec)

/-- Python `str(x)` for a string-or-None value as it appears inside the
formatted duplicate-registration message. -/
def pyStr (s : Option String) : String :=
  match s with
  | none => "None"
  | some s => s

/-- The text interpolated by
`"method already registered: ...".format((kind, name))` (quoting detail
elided). -/
def formatKey (kind name : Option String) : String :=
  "(" ++ pyStr kind ++ ", " ++ pyStr name ++ ")"

/-- `Resource._register_method`: if `self.methods.get((kind, name))` is truthy
(a stored `_Method` is a 6-field namedtuple, always truthy, so this tests key
presence) the duplicate branch executes
`raise ResourceError("method already registered: ...")` — a one-argument
constructor call; otherwise the `_Method` record is stored under the
`(kind, name)` key. -/
def registerMethod (methods : Methods) (function : PyFun)
    (kind name : Option String) (params : Option ParamsSchema)
    (returns : Option Schema) (security : Option String) :
    Except PyError Methods :=
  if (List.lookup (kind, name) methods).isSome then
    Except.error (pyRaise (mkResourceError
      (some ("method already registered: " ++ formatKey kind name)) none))
  else
    Except.ok (((kind, name),
      { function := function, kind := kind, name := name,
        params := params, returns := returns, security := security }) :: methods)

/-- `Resource.__init__`: starts from an empty `methods` dict and registers
every discovered decorated callable (a bound callable carrying a
`roax_method` metadata record; undecorated callables are skipped by the
enumeration and do not appear in `discovered`). -/
def resourceInit (discovered : List (PyFun × MethodMeta)) : Except PyError Methods :=
  discovered.foldlM
    (fun ms fm =>
      registerMethod ms fm.1 fm.2.kind fm.2.name fm.2.params fm.2.returns fm.2.security)
    []

/-- `Resource.call(kind, name=None, params=())`: looks up `(kind, name)`; on a
`KeyError` raises `ResourceError("resource does not provide method", 400)`;
on a hit invokes the stored function with the params expanded as keyword
arguments. -/
def call (methods : Methods) (kind : Option String)
    (name : Option String := none) (params : Params := []) :
    List Event × Except PyError Value :=
  match List.lookup (kind, name) methods with
  | none =>
    ([], Except.error (pyRaise (mkResourceError
      (some "resource does not provide method") (some 400))))
  | some m => m.function params

/-- The registry invariant of C9: every stored record's `kind`/`name` fields
agree with the components of its key. -/
def methodsInv (ms : Methods) : Prop :=
  ∀ k r, (k, r) ∈ ms → r.kind = k.1 ∧ r.name = k.2

/-- A sample operation body used as a concrete input in witnesses and
counterexamples. -/
def sampleBody : Params → Except PyError Value :=
  fun _ => Except.ok Value.vnone

/-- A sample registered callable used as a concrete input in witnesses and
counterexamples. -/
def sampleFun : PyFun :=
  fun _ => ([], Except.ok Value.vnone)

/-- Declaration metadata of a decorated function named `create` with all
optional declaration arguments left at their defaults. -/
def sampleMeta : MethodMeta :=
  { kind := some "create", name := none, params := none, returns := none, security := none }

/-- C1: within one resource, registering two operations that resolve to the
same `(kind, name)` pair does fail at construction time, during the
registry-building fold of `__init__` / `_register_method` — but the exception
that escapes is the `TypeError` produced by the one-argument call
`ResourceError("method already registered: ...")` (whose `__init__` requires
`code`), not a `ResourceError`. -/
theorem C1_duplicate_registration_raises_typeerror :
    resourceInit [(sampleFun, sampleMeta), (sampleFun, sampleMeta)] =
      Except.error (PyError.typeError
        "ResourceError.__init__ missing 1 required positional argument: code") := rfl

/-- C2: `call` on an unregistered `(kind, name)` raises the 400-coded
`ResourceError` with detail "resource does not provide method"; on a
registered pair it invokes the stored wrapped function on the given params
and returns exactly that function's outcome, so results and raised errors
pass through unchanged. -/
theorem C2_call_dispatch (methods : Methods) (kind name : Option String)
    (ps : Params) :
    (List.lookup (kind, name) methods = none →
      call methods kind name ps =
        ([], Except.error (PyError.resourceError
          { detail := some "resource does not provide method", code := 400,
            realm := none }))) ∧
    (∀ m, List.lookup (kind, name) methods = some m →
      call methods kind name ps = m.function ps) := by
  constructor
  · intro h
    simp [call, h, pyRaise, mkResourceError, resourceErrorInit]
  · intro m h
    simp [call, h]

/-- Witness for C2 at concrete inputs: the empty registry misses, and a
one-entry registry dispatches to the stored function. -/
theorem C2_call_dispatch_witness :
    call [] (some "create") none [] =
      ([], Except.error (PyError.resourceError
        { detail := some "resource does not provide method", code := 400,
          realm := none })) ∧
    call [((some "create", none),
        { function := sampleFun, kind := some "create", name := none,
          params := none, returns := none, security := none })]
      (some "create") none [] = sampleFun [] :=
  ⟨(C2_call_dispatch [] (some "create") none []).1 rfl,
   (C2_call_dispatch [((some "create", none),
        { function := sampleFun, kind := some "create", name := none,
          params := none, returns := none, security := none })]
      (some "create") none []).2 _ rfl⟩

/-- C3 counterexample: an explicit `name=""` does not override the derived
name — `_name = _name or split[1]` treats the empty string as falsy, so the
derived segment "widget" wins. -/
theorem C3_empty_explicit_name_overridden :
    deriveKindName none (some "") "create_widget" = (some "create", some "widget") ∧
    deriveKindName none (some "") "create_widget" ≠ (some "create", some "") := by
  constructor
  · rfl
  · decide

/-- C3 amended: default derivation splits the declared function name once on
the underscore ("create" gives kind "create" and no name; "create_widget"
gives kind "create" and name "widget"); an explicit kind always overrides the
derived kind, and an explicit name overrides the derived name whenever it is
not the empty string (the empty string, being falsy in Python, is replaced by
the derived segment when the declared name contains a separator). -/
theorem C3_derivation_amended (kindArg nameArg : Option String) (k s : String)
    (fname : String) :
    (deriveKindName (some k) nameArg fname).1 = some k ∧
    (s ≠ "" → (deriveKindName kindArg (some s) fname).2 = some s) ∧
    deriveKindName none none "create" = (some "create", none) ∧
    deriveKindName none none "create_widget" = (some "create", some "widget") := by
  refine ⟨rfl, ?_, by decide, by decide⟩
  intro hs
  cases h : (pySplitOnce fname).2 with
  | none => simp [deriveKindName, h]
  | some rest => simp [deriveKindName, h, pyOrStr, hs]

/-- Witness for C3 amended at concrete inputs. -/
theorem C3_derivation_amended_witness :
    (deriveKindName (some "create") none "delete_widget").1 = some "create" ∧
    (deriveKindName none (some "gadget") "create_widget").2 = some "gadget" :=
  ⟨(C3_derivation_amended (some "create") none "create" "gadget" "delete_widget").1,
   (C3_derivation_amended none (some "gadget") "create" "gadget"
      "create_widget").2.1 (by decide)⟩

/-- C8: every concrete error kind stores the constructor's `detail` and its
fixed status code — BadRequest 400, Unauthorized 401 (also storing `realm`),
Forbidden 403, NotFound 404, Conflict 412, PreconditionFailed 412,
InternalServerError 500. -/
theorem C8_error_taxonomy_codes (d : Option String) (r : String) :
    (mkBadRequest d).code = 400 ∧ (mkBadRequest d).detail = d ∧
    (mkUnauthorized r d).code = 401 ∧ (mkUnauthorized r d).detail = d ∧
    (mkUnauthorized r d).realm = some r ∧
    (mkForbidden d).code = 403 ∧ (mkForbidden d).detail = d ∧
    (mkNotFound d).code = 404 ∧ (mkNotFound d).detail = d ∧
    (mkConflict d).code = 412 ∧ (mkConflict d).detail = d ∧
    (mkPreconditionFailed d).code = 412 ∧ (mkPreconditionFailed d).detail = d ∧
    (mkInternalServerError d).code = 500 ∧ (mkInternalServerError d).detail = d :=
  ⟨rfl, rfl, rfl, rfl, rfl, rfl, rfl, rfl, rfl, rfl, rfl, rfl, rfl, rfl, rfl⟩

/-- Shape of every trace the decorated pipeline can produce: empty (params
rejected before the wrapper runs), push/invoke/pop (no return validation ran),
or push/invoke/pop followed by return validation. -/
lemma decorated_trace_cases (params : Option ParamsSchema) (returns : Option Schema)
    (kn1 kn2 : Option String) (f : Params → Except PyError Value) (kwargs : Params) :
    (sValidate params returns (wrapper kn1 kn2 (invokeFunction f)) kwargs).1 = [] ∨
    (∃ kw, (sValidate params returns (wrapper kn1 kn2 (invokeFunction f)) kwargs).1 =
      [Event.pushFrame (methodFrame kn1 kn2),
        Event.invoke kw, Event.popFrame]) ∨
    (∃ kw v, (sValidate params returns (wrapper kn1 kn2 (invokeFunction f)) kwargs).1 =
      [Event.pushFrame (methodFrame kn1 kn2),
        Event.invoke kw, Event.popFrame, Event.validateReturn v]) := by
  unfold sValidate
  cases hp : validateParamsStep params kwargs with
  | error e => left; rfl
  | ok kw =>
    cases hf : f kw with
    | error e =>
      right; left
      exact ⟨kw, by simp [wrapper, withContext, invokeFunction, hf]⟩
    | ok v =>
      cases returns with
      | none =>
        right; left
        exact ⟨kw, by simp [wrapper, withContext, invokeFunction, hf]⟩
      | some sch =>
        right; right
        refine ⟨kw, v, ?_⟩
        cases hv : sch.validate v <;>
          simp [wrapper, withContext, invokeFunction, hf, hv]

/-- C4: the wrapper built by `method` pushes, for every invocation, the frame
with type "method" and the operation's resolved kind and name, and pops it on
every exit path (whatever the original function's outcome), so the shared
context stack after a full invocation of the decorated operation equals the
stack before it. -/
theorem C4_context_stack_balanced (kind name : Option String)
    (params : Option ParamsSchema) (returns : Option Schema)
    (security : Option String) (fname : String)
    (f : Params → Except PyError Value) (kwargs : Params) (stack : List Frame) :
    (wrapper (deriveKindName kind name fname).1 (deriveKindName kind name fname).2
        (invokeFunction f) kwargs).1 =
      [Event.pushFrame (methodFrame (deriveKindName kind name fname).1
          (deriveKindName kind name fname).2),
        Event.invoke kwargs, Event.popFrame] ∧
    runStack stack ((methodDecorator kind name params returns security fname f).1 kwargs).1 =
      stack := by
  constructor
  · rfl
  · have h := decorated_trace_cases params returns (deriveKindName kind name fname).1
      (deriveKindName kind name fname).2 f kwargs
    show runStack stack (sValidate params returns
      (wrapper (deriveKindName kind name fname).1 (deriveKindName kind name fname).2
        (invokeFunction f)) kwargs).1 = stack
    rcases h with h | ⟨kw, h⟩ | ⟨kw, v, h⟩ <;>
      simp [h, runStack, applyEvent]

/-- C5 counterexample: for an operation declared with security policy "admin",
an invocation of the decorated operation never invokes the security
collaborator — its whole trace is push, invoke, pop (the application line is
commented out in the source). -/
theorem C5_no_security_application :
    Event.securityApply "admin" ∉
      ((methodDecorator none none none none (some "admin") "create"
        sampleBody).1 []).1 := by decide

/-- C5 amended: the decorator records the declared security policy in the
operation's stashed metadata (and hence in its registration), but the wrapper
applies no security hook during any invocation: no trace of the decorated
operation contains a security-application event. -/
theorem C5_security_stored_never_applied (kind name : Option String)
    (params : Option ParamsSchema) (returns : Option Schema)
    (security : Option String) (fname : String)
    (f : Params → Except PyError Value) (kwargs : Params) (p : String) :
    (methodDecorator kind name params returns security fname f).2.security = security ∧
    Event.securityApply p ∉
      ((methodDecorator kind name params returns security fname f).1 kwargs).1 := by
  constructor
  · rfl
  · have h := decorated_trace_cases params returns (deriveKindName kind name fname).1
      (deriveKindName kind name fname).2 f kwargs
    show Event.securityApply p ∉ (sValidate params returns
      (wrapper (deriveKindName kind name fname).1 (deriveKindName kind name fname).2
        (invokeFunction f)) kwargs).1
    rcases h with h | ⟨kw, h⟩ | ⟨kw, v, h⟩ <;> simp [h]

/-- Witness for C5 amended at concrete inputs. -/
theorem C5_security_stored_never_applied_witness :
    (methodDecorator none none none none (some "admin") "delete"
      sampleBody).2.security = some "admin" :=
  (C5_security_stored_never_applied none none none none (some "admin") "delete"
    sampleBody [] "admin").1

/-- The identity value schema: accepts every value unchanged. -/
def idSchema : Schema := { validate := fun v => some v }

/-- C6 counterexample: for an operation with a declared returns schema, the
invocation trace is push, invoke, pop, validate-return — the return-value
validation runs after the context frame has been popped, and the context
stack is already empty (the frame is not on the stack) when it runs. -/
theorem C6_return_validated_after_pop :
    (((methodDecorator none none none (some idSchema) none "create"
        (fun _ => Except.ok (Value.vstr "foo"))).1 []).1 =
      [Event.pushFrame (methodFrame (some "create") none),
        Event.invoke [], Event.popFrame, Event.validateReturn (Value.vstr "foo")]) ∧
    runStack []
      ((((methodDecorator none none none (some idSchema) none "create"
        (fun _ => Except.ok (Value.vstr "foo"))).1 []).1).take 3) = [] := by
  exact ⟨rfl, rfl⟩

/-- C6 amended: with a declared returns schema, the return value is validated
after the original function returns and after the context frame pushed for
the invocation has been popped — `s.validate` is composed outside the
context-scoping wrapper, so the trace is exactly push, invoke, pop,
validate-return. -/
theorem C6_return_validation_after_frame_pop (kind name : Option String)
    (params : Option ParamsSchema) (sch : Schema) (security : Option String)
    (fname : String) (f : Params → Except PyError Value) (kwargs kw : Params)
    (v : Value)
    (hp : validateParamsStep params kwargs = Except.ok kw)
    (hf : f kw = Except.ok v) :
    ((methodDecorator kind name params (some sch) security fname f).1 kwargs).1 =
      [Event.pushFrame (methodFrame (deriveKindName kind name fname).1
          (deriveKindName kind name fname).2),
        Event.invoke kw, Event.popFrame, Event.validateReturn v] := by
  show (sValidate params (some sch)
    (wrapper (deriveKindName kind name fname).1 (deriveKindName kind name fname).2
      (invokeFunction f)) kwargs).1 = _
  unfold sValidate
  rw [hp]
  cases hv : sch.validate v <;>
    simp [wrapper, withContext, invokeFunction, hf, hv]

/-- Witness for C6 amended at concrete inputs. -/
theorem C6_return_validation_after_frame_pop_witness :
    ((methodDecorator none none none (some idSchema) none "update"
      sampleBody).1 []).1 =
      [Event.pushFrame (methodFrame (some "update") none),
        Event.invoke [], Event.popFrame, Event.validateReturn Value.vnone] :=
  C6_return_validation_after_frame_pop none none none idSchema none "update"
    sampleBody [] [] Value.vnone rfl rfl

/-- C7: with a declared params schema, an invocation whose keyword arguments
the validation collaborator rejects yields the 400-coded validation error and
produces an empty trace — in particular the original function is never
invoked. -/
theorem C7_params_rejection_blocks_invocation (kind name : Option String)
    (psch : ParamsSchema) (returns : Option Schema) (security : Option String)
    (fname : String) (f : Params → Except PyError Value) (kwargs : Params)
    (hrej : psch.validate kwargs = none) :
    (methodDecorator kind name (some psch) returns security fname f).1 kwargs =
      ([], Except.error (PyError.resourceError
        { detail := some "parameter validation failed", code := 400,
          realm := none })) ∧
    ∀ kw, Event.invoke kw ∉
      ((methodDecorator kind name (some psch) returns security fname f).1 kwargs).1 := by
  have h1 : (methodDecorator kind name (some psch) returns security fname f).1 kwargs =
      ([], Except.error (PyError.resourceError
        { detail := some "parameter validation failed", code := 400,
          realm := none })) := by
    show sValidate (some psch) returns
      (wrapper (deriveKindName kind name fname).1 (deriveKindName kind name fname).2
        (invokeFunction f)) kwargs = _
    unfold sValidate validateParamsStep
    simp [hrej, mkBadRequest, resourceErrorInit]
  exact ⟨h1, by simp [h1]⟩

/-- A params schema rejecting every keyword-argument mapping. -/
def rejectSchema : ParamsSchema := { validate := fun _ => none }

/-- Witness for C7 at concrete inputs. -/
theorem C7_params_rejection_blocks_invocation_witness :
    (methodDecorator none none (some rejectSchema) none none "create"
      sampleBody).1 [] =
      ([], Except.error (PyError.resourceError
        { detail := some "parameter validation failed", code := 400,
          realm := none })) :=
  (C7_params_rejection_blocks_invocation none none rejectSchema none none
    "create" sampleBody [] rfl).1

/-- A successful `_register_method` preserves the key/field agreement
invariant: the new entry stores the key's own components in its `kind` and
`name` slots, and old entries are untouched. -/
lemma registerMethod_preserves_inv (ms : Methods) (f : PyFun)
    (kind name : Option String) (params : Option ParamsSchema)
    (returns : Option Schema) (security : Option String) (ms' : Methods)
    (hinv : methodsInv ms)
    (heq : registerMethod ms f kind name params returns security = Except.ok ms') :
    methodsInv ms' := by
  unfold registerMethod at heq
  split at heq
  · exact absurd heq (by simp)
  · injection heq with h
    subst h
    intro k r hmem
    rcases List.mem_cons.1 hmem with h | h
    · injection h with h1 h2
      subst h1; subst h2
      exact ⟨rfl, rfl⟩
    · exact hinv k r h

/-- The registration fold of `__init__` preserves the key/field agreement
invariant from any starting registry. -/
lemma resourceInit_fold_inv (discovered : List (PyFun × MethodMeta)) :
    ∀ ms, methodsInv ms → ∀ ms',
      discovered.foldlM
        (fun ms fm =>
          registerMethod ms fm.1 fm.2.kind fm.2.name fm.2.params fm.2.returns fm.2.security)
        ms = Except.ok ms' →
      methodsInv ms' := by
  induction discovered with
  | nil =>
    intro ms hinv ms' heq
    injection heq with h
    subst h
    exact hinv
  | cons d ds ih =>
    intro ms hinv ms' heq
    rw [List.foldlM_cons] at heq
    cases hr : registerMethod ms d.1 d.2.kind d.2.name d.2.params d.2.returns d.2.security with
    | error e =>
      rw [hr] at heq
      exact absurd heq (by simp [Bind.bind, Except.bind])
    | ok ms1 =>
      rw [hr] at heq
      simp only [Bind.bind, Except.bind] at heq
      exact ih ms1 (registerMethod_preserves_inv ms d.1 d.2.kind d.2.name
        d.2.params d.2.returns d.2.security ms1 hinv hr) ms' heq

/-- C9: after construction, every entry of the methods table stores, under key
`(kind, name)`, a record whose `kind` and `name` fields equal the key's
components; registration — the only operation extending the table —
preserves this correspondence. -/
theorem C9_registry_key_field_agreement :
    (∀ ms f kind name params returns security ms', methodsInv ms →
      registerMethod ms f kind name params returns security = Except.ok ms' →
      methodsInv ms') ∧
    (∀ discovered ms, resourceInit discovered = Except.ok ms → methodsInv ms) := by
  constructor
  · intro ms f kind name params returns security ms' hinv heq
    exact registerMethod_preserves_inv ms f kind name params returns security ms' hinv heq
  · intro discovered ms heq
    exact resourceInit_fold_inv discovered [] (by intro k r h; cases h) ms heq

/-- Witness for C9 at a concrete input: the registry built from one decorated
`create` operation satisfies the invariant. -/
theorem C9_registry_key_field_agreement_witness :
    methodsInv [((some "create", none),
      { function := sampleFun, kind := some "create", name := none,
        params := none, returns := none, security := none })] :=
  C9_registry_key_field_agreement.2 [(sampleFun, sampleMeta)] _ rfl

/-- C10: `call`'s `name` parameter defaults to `None`; an operation whose
declared function name has no separator and no explicit name derives name
`None` and so is registered under key `(kind, None)`, and `call` invoked with
the name argument omitted dispatches to exactly that operation. -/
theorem C10_no_separator_default_name_dispatch (kindArg : Option String)
    (params : Option ParamsSchema) (returns : Option Schema)
    (security : Option String) (fname : String)
    (f : Params → Except PyError Value)
    (hsep : (pySplitOnce fname).2 = none) :
    (methodDecorator kindArg none params returns security fname f).2.name = none ∧
    ∀ ms ms',
      registerMethod ms (methodDecorator kindArg none params returns security fname f).1
        (methodDecorator kindArg none params returns security fname f).2.kind
        (methodDecorator kindArg none params returns security fname f).2.name
        params returns security = Except.ok ms' →
      call ms' (methodDecorator kindArg none params returns security fname f).2.kind =
        (methodDecorator kindArg none params returns security fname f).1 [] := by
  have hname : (methodDecorator kindArg none params returns security fname f).2.name = none := by
    show (deriveKindName kindArg none fname).2 = none
    simp [deriveKindName, hsep]
  refine ⟨hname, ?_⟩
  intro ms ms' heq
  unfold registerMethod at heq
  split at heq
  · exact absurd heq (by simp)
  · injection heq with h
    subst h
    rw [hname]
    simp [call, List.lookup]

/-- Witness for C10 at concrete inputs: a decorated function named `create`
with no explicit name registers under `(some "create", none)` and is reached
by `call` with the name argument left at its default. -/
theorem C10_no_separator_default_name_dispatch_witness :
    (methodDecorator none none none none none "create" sampleBody).2.name = none ∧
    call [(((methodDecorator none none none none none "create" sampleBody).2.kind,
        (methodDecorator none none none none none "create" sampleBody).2.name),
      { function := (methodDecorator none none none none none "create" sampleBody).1,
        kind := (methodDecorator none none none none none "create" sampleBody).2.kind,
        name := (methodDecorator none none none none none "create" sampleBody).2.name,
        params := none, returns := none, security := none })]
      (methodDecorator none none none none none "create" sampleBody).2.kind =
      (methodDecorator none none none none none "create" sampleBody).1 [] :=
  have h := C10_no_separator_default_name_dispatch none none none none "create"
    sampleBody rfl
  ⟨h.1, h.2 [] _ rfl⟩

end Roax
